import Mathlib

/-!
Shallow embedding of the `problem` Go package (RFC 7807 problem details):
the `ProblemDetails` value type, its status catalog, the fluent mutators,
the response writer (`rawWrite` / `Write` / `MustWrite`), and the
`ValidationProblem` extension, together with theorems about them.
-/

set_option maxRecDepth 4000

namespace Problem

/-- JSON values, as produced by the `encoding/json` encoder at the boundary.
Objects are modelled as ordered association lists of field name / value. -/
inductive JsonVal : Type where
  | str (s : String)
  | num (n : Int)
  | arr (elems : List JsonVal)
  | obj (fields : List (String × JsonVal))

/-- One field-level validation complaint, from `ValidationError` in the source:
`FieldName` is serialized as `name`, `Error` as `reason`. -/
structure ValidationError where
  FieldName : String
  Error : String

mutual

/-- The `ProblemDetails` struct: `Status`, `Title`, `Detail`, `Type`,
`Instance` (JSON-tagged, all omitempty) and the unexported `wrappedError`.
`Type` is spelled `Type'` and `Instance` is spelled `Instance'` because the
source names collide with Lean keywords/builtins. -/
inductive ProblemDetails : Type where
  | mk (status : Int) (title detail type' instance' : String)
       (wrappedError : Option GoError)

/-- The `ValidationProblem` struct: an embedded `ProblemDetails` plus the
`ValidationErrors` slice (JSON tag `invalid-params`, omitempty). -/
inductive ValidationProblem : Type where
  | mk (base : ProblemDetails) (validationErrors : List ValidationError)

/-- Dynamic `error` values occurring in the package: a plain error built by
`errors.New`/`fmt.Errorf` (only its message is observable), a
`ProblemDetails`, or a `ValidationProblem`. -/
inductive GoError : Type where
  | plain (msg : String)
  | problem (pd : ProblemDetails)
  | validation (vp : ValidationProblem)

end

def ProblemDetails.Status : ProblemDetails → Int
  | .mk s _ _ _ _ _ => s

def ProblemDetails.Title : ProblemDetails → String
  | .mk _ t _ _ _ _ => t

def ProblemDetails.Detail : ProblemDetails → String
  | .mk _ _ d _ _ _ => d

def ProblemDetails.Type' : ProblemDetails → String
  | .mk _ _ _ ty _ _ => ty

def ProblemDetails.Instance' : ProblemDetails → String
  | .mk _ _ _ _ i _ => i

def ProblemDetails.wrappedError : ProblemDetails → Option GoError
  | .mk _ _ _ _ _ w => w

def ValidationProblem.base : ValidationProblem → ProblemDetails
  | .mk b _ => b

def ValidationProblem.ValidationErrors : ValidationProblem → List ValidationError
  | .mk _ es => es

/-- `GetStatus` on `ProblemDetails` (implements the `HTTPError` interface). -/
def ProblemDetails.GetStatus (pd : ProblemDetails) : Int :=
  pd.Status

/-- `Error()` on `ProblemDetails`: returns the title. -/
def ProblemDetails.Error (pd : ProblemDetails) : String :=
  pd.Title

/-- `Unwrap()` on `ProblemDetails`: returns the wrapped error. -/
def ProblemDetails.Unwrap (pd : ProblemDetails) : Option GoError :=
  pd.wrappedError

/-- `GetStatus` promoted from the embedded `ProblemDetails`. -/
def ValidationProblem.GetStatus (vp : ValidationProblem) : Int :=
  vp.base.GetStatus

/-- `Error()` promoted from the embedded `ProblemDetails`. -/
def ValidationProblem.Error (vp : ValidationProblem) : String :=
  vp.base.Error

/-- `Error()` of a dynamic error value (Go interface dispatch). -/
def GoError.Error : GoError → String
  | .plain m => m
  | .problem pd => pd.Error
  | .validation vp => vp.Error

/-- The `ContentProblemDetails` MIME-type constant. -/
def ContentProblemDetails : String := "application/problem+json"

/-- The `typeForStatus` map literal from the source, as an association list
from status code to title. `http.Status*` constants are replaced by their
numeric values. -/
def typeForStatus : List (Int × String) :=
  [ (400, "Bad Request"),
    (401, "Unauthorized"),
    (402, "Payment Required"),
    (403, "Forbidden"),
    (404, "Not Found"),
    (405, "Method Not Allowed"),
    (406, "Not Acceptable"),
    (407, "Proxy Authentication Required"),
    (408, "Request Timeout"),
    (409, "Conflict"),
    (410, "Gone"),
    (411, "Length Required"),
    (412, "Precondition Failed"),
    (413, "Payload Too Large"),
    (414, "URI Too Long"),
    (415, "Unsupported Media Type"),
    (416, "Range Not Satisfiable"),
    (417, "Expectation Failed"),
    (418, "I'm a teapot"),
    (421, "Misdirected Request"),
    (422, "Unprocessable Entity"),
    (423, "Locked"),
    (424, "Failed Dependency"),
    (425, "Too Early"),
    (426, "Upgrade Required"),
    (428, "Precondition Required"),
    (429, "Too Many Requests"),
    (431, "Request Header Fields Too Large"),
    (451, "Unavailable For Legal Reasons"),
    (499, "Client Closed Request"),
    (500, "Internal Server Error"),
    (501, "Not Implemented"),
    (502, "Bad Gateway"),
    (503, "Service Unavailable"),
    (504, "Gateway Timeout"),
    (505, "HTTP Version Not Supported"),
    (506, "Variant Also Negotiates"),
    (507, "Insufficient Storage"),
    (508, "Loop Detected"),
    (510, "Not Extended"),
    (511, "Network Authentication Required"),
    (599, "Network Connect Timeout New") ]

/-- `typeForStatus[status]`: Go map indexing, yielding the zero value `""`
when the key is absent. -/
def lookupTitle (status : Int) : String :=
  (typeForStatus.lookup status).getD ""

/-- `New(status)`: constructs a `ProblemDetails` with the given status, the
catalog title, and the default type URI (`strconv.Itoa` is `Int.toString`). -/
def New (status : Int) : ProblemDetails :=
  .mk status (lookupTitle status) "" ("https://httpstatuses.com/" ++ toString status) "" none

/-- `WithDetail(msg)`: sets `Detail` verbatim, returns the object. -/
def ProblemDetails.WithDetail : ProblemDetails → String → ProblemDetails
  | .mk s t _ ty i w, msg => .mk s t msg ty i w

/-- `WithErr(err)`: stores `err` as the wrapped error and, when `Detail` is
blank, initializes it from `err.Error()`; returns the object. -/
def ProblemDetails.WithErr : ProblemDetails → GoError → ProblemDetails
  | .mk s t d ty i _, e => .mk s t (if d = "" then e.Error else d) ty i (some e)

/-- An argument passed through `...interface{}` to a formatting call. -/
inductive FmtArg : Type where
  | str (s : String)
  | int (n : Int)
  | err (e : GoError)

/-- Rendering of an argument under the `%v` verb (strings verbatim, integers
in decimal, errors via their `Error()` message). -/
def renderV : FmtArg → String
  | .str s => s
  | .int n => toString n
  | .err e => e.Error

/-- Rendering of an argument under the `%s` verb; a non-string, non-error
operand yields a `fmt`-style bad-operand marker. -/
def renderS : FmtArg → String
  | .str s => s
  | .int n => "%!s(int=" ++ toString n ++ ")"
  | .err e => e.Error

/-- Rendering of an argument under the `%d` verb; non-integer operands yield
a `fmt`-style bad-operand marker. -/
def renderD : FmtArg → String
  | .int n => toString n
  | .str s => "%!d(string=" ++ s ++ ")"
  | .err e => "%!d(" ++ e.Error ++ ")"

/-- Models the format-string scan inside the standard library `fmt.Errorf`:
returns the rendered text, the list of error operands consumed by `%w`
verbs (in order), and the unconsumed arguments. `%%` renders a percent
sign; a verb with no argument left renders a `(MISSING)` marker; an
unsupported verb renders a bad-verb marker. -/
def fmtLoop : List Char → List FmtArg → String × List GoError × List FmtArg
  | [], args => ("", [], args)
  | '%' :: '%' :: rest, args =>
    let (s, ws, la) := fmtLoop rest args
    ("%" ++ s, ws, la)
  | ['%'], args => ("%!(NOVERB)", [], args)
  | '%' :: c :: rest, args =>
    match args with
    | [] =>
      let (s, ws, la) := fmtLoop rest []
      ("%!" ++ String.singleton c ++ "(MISSING)" ++ s, ws, la)
    | a :: args' =>
      let (s, ws, la) := fmtLoop rest args'
      if c = 'w' then
        match a with
        | .err e => (e.Error ++ s, e :: ws, la)
        | _ => ("%!w(" ++ renderV a ++ ")" ++ s, ws, la)
      else if c = 'v' then (renderV a ++ s, ws, la)
      else if c = 's' then (renderS a ++ s, ws, la)
      else if c = 'd' then (renderD a ++ s, ws, la)
      else ("%!" ++ String.singleton c ++ "(" ++ renderV a ++ ")" ++ s, ws, la)
  | c :: rest, args =>
    let (s, ws, la) := fmtLoop rest args
    (String.singleton c ++ s, ws, la)

/-- The error operands consumed by `%w` verbs when formatting. -/
def wCaptured (fmtstr : String) (args : List FmtArg) : List GoError :=
  (fmtLoop fmtstr.data args).2.1

/-- Models `fmt.Errorf` followed by `errors.Unwrap`: the formatted message
(with an `(EXTRA ...)` marker when arguments are left over), and the
single-level wrapped error — present exactly when one `%w` verb consumed an
error operand. -/
def fmtErrorf (fmtstr : String) (args : List FmtArg) : String × Option GoError :=
  let r := fmtLoop fmtstr.data args
  (r.1 ++ (if r.2.2.isEmpty then ""
           else "%!(EXTRA " ++ String.intercalate ", " (r.2.2.map renderV) ++ ")"),
   match wCaptured fmtstr args with
   | [e] => some e
   | _ => none)

/-- `Errorf(fmtstr, args...)` on `ProblemDetails`: builds the error with
`fmt.Errorf`, stores `errors.Unwrap` of it as the wrapped error, and sets
`Detail` to its message; returns the object. -/
def ProblemDetails.Errorf (pd : ProblemDetails) (fmtstr : String) (args : List FmtArg) :
    ProblemDetails :=
  .mk pd.Status pd.Title (fmtErrorf fmtstr args).1 pd.Type' pd.Instance'
    (fmtErrorf fmtstr args).2

/-- Values satisfying the `HTTPError` interface within the package:
`ProblemDetails` and (by embedding) `ValidationProblem`. -/
inductive HTTPErrorVal : Type where
  | pd (p : ProblemDetails)
  | vp (v : ValidationProblem)

/-- `GetStatus()` via interface dispatch. -/
def HTTPErrorVal.GetStatus : HTTPErrorVal → Int
  | .pd p => p.GetStatus
  | .vp v => v.GetStatus

/-- JSON encoding of one `ValidationError`. -/
def encodeVE (ve : ValidationError) : JsonVal :=
  .obj [("name", .str ve.FieldName), ("reason", .str ve.Error)]

/-- JSON encoding of a `ProblemDetails` as the ordered field list of its
object, honouring the `omitempty` tags (zero status and empty strings are
omitted; `wrappedError` is unexported and never serialized). -/
def encodePD (pd : ProblemDetails) : List (String × JsonVal) :=
  (if pd.Status = 0 then [] else [("status", JsonVal.num pd.Status)])
    ++ (if pd.Title = "" then [] else [("title", JsonVal.str pd.Title)])
    ++ (if pd.Detail = "" then [] else [("detail", JsonVal.str pd.Detail)])
    ++ (if pd.Type' = "" then [] else [("type", JsonVal.str pd.Type')])
    ++ (if pd.Instance' = "" then [] else [("instance", JsonVal.str pd.Instance')])

/-- JSON encoding of a `ValidationProblem`: the fields of the embedded struct
followed by `invalid-params` (omitted when the slice is empty). -/
def encodeVP (vp : ValidationProblem) : List (String × JsonVal) :=
  encodePD vp.base
    ++ (if vp.ValidationErrors.isEmpty then []
        else [("invalid-params", JsonVal.arr (vp.ValidationErrors.map encodeVE))])

/-- JSON encoding via interface dispatch, as `json.NewEncoder(w).Encode(obj)`
performs on the dynamic type. -/
def encodeHTTPError : HTTPErrorVal → List (String × JsonVal)
  | .pd p => encodePD p
  | .vp v => encodeVP v

/-- One committed HTTP response: content type, status line, JSON body. -/
structure WriteEvent where
  contentType : String
  status : Int
  body : List (String × JsonVal)

/-- The response recorder: the sequence of responses written so far. -/
abbrev Recorder : Type := List WriteEvent

/-- `rawWrite(w, obj)`: sets the content type, writes the status line from
`obj.GetStatus()`, and encodes `obj` as the JSON body — one appended
response event; the error from the JSON encoder is always `nil` here. -/
def rawWrite (w : Recorder) (obj : HTTPErrorVal) : Recorder × Option GoError :=
  (w ++ [⟨ContentProblemDetails, obj.GetStatus, encodeHTTPError obj⟩], none)

/-- Method-form `Write` on `ProblemDetails`: delegates to `rawWrite`. -/
def ProblemDetails.Write (pd : ProblemDetails) (w : Recorder) : Recorder × Option GoError :=
  rawWrite w (.pd pd)

/-- A dynamic value handed to the non-fluent `Write` where an `error` is
expected: either an actual error value, or a value of some non-error type
(represented by its `%T` type name), which the `default` branch of the
type switch reports. -/
inductive GoVal : Type where
  | goError (e : GoError)
  | nonError (typeName : String)

/-- Non-fluent `Write(w, err)`: `nil` is a no-op returning `nil`; a value
satisfying `HTTPError` is serialized via `rawWrite`; any other error is
returned untouched; a non-error value yields the formatting error from the
`default` branch. The type switch tries `HTTPError` before `error`. -/
def Write (w : Recorder) (err : Option GoVal) : Recorder × Option GoError :=
  match err with
  | none => (w, none)
  | some (.goError (.problem pd)) => rawWrite w (.pd pd)
  | some (.goError (.validation vp)) => rawWrite w (.vp vp)
  | some (.goError e) => (w, some e)
  | some (.nonError t) => (w, some (.plain ("can't write non-error type " ++ t)))

/-- `MustWrite(w, err)`: runs `Write`; when a residual error comes back it is
wrapped as a fresh 500 `ProblemDetails` (via `New` + `WithErr`) and written. -/
def MustWrite (w : Recorder) (err : Option GoError) : Recorder × Option GoError :=
  match Write w (err.map GoVal.goError) with
  | (w1, some e) => ((New 500).WithErr e).Write w1
  | (w1, none) => (w1, none)

/-- First-match field lookup in the field list of a JSON object. -/
def getField : List (String × JsonVal) → String → Option JsonVal
  | [], _ => none
  | (k, v) :: rest, key => if k = key then some v else getField rest key

/-- String-field extraction as `json.Unmarshal` leaves it: absent or
non-string fields give the zero value `""`. -/
def getStr (fields : List (String × JsonVal)) (key : String) : String :=
  match getField fields key with
  | some (.str s) => s
  | _ => ""

/-- Integer-field extraction as `json.Unmarshal` leaves it: absent or
non-numeric fields give the zero value `0`. -/
def getNum (fields : List (String × JsonVal)) (key : String) : Int :=
  match getField fields key with
  | some (.num n) => n
  | _ => 0

/-- `json.Unmarshal` of a body into a `ProblemDetails` (as the tests do):
each tagged field from the object, zero values for absent ones,
`wrappedError` untouched (`nil`). -/
def decodePD (fields : List (String × JsonVal)) : ProblemDetails :=
  .mk (getNum fields "status") (getStr fields "title") (getStr fields "detail")
    (getStr fields "type") (getStr fields "instance") none

/-- `json.Unmarshal` of one `invalid-params` entry. -/
def decodeVE : JsonVal → ValidationError
  | .obj fs => ⟨getStr fs "name", getStr fs "reason"⟩
  | _ => ⟨"", ""⟩

/-- `json.Unmarshal` of a body into a `ValidationProblem` (as the tests do). -/
def decodeVP (fields : List (String × JsonVal)) : ValidationProblem :=
  .mk (decodePD fields)
    (match getField fields "invalid-params" with
     | some (.arr xs) => xs.map decodeVE
     | _ => [])

/-- `NewValidationProblem()`: status fixed at 400, detail defaulted to
"Validation error", empty field-error list; all other fields zero. -/
def NewValidationProblem : ValidationProblem :=
  .mk (.mk 400 "" "Validation error" "" "" none) []

/-- `Add(field, errmsg)`: appends one `ValidationError` to the slice. -/
def ValidationProblem.Add (vp : ValidationProblem) (field errmsg : String) :
    ValidationProblem :=
  .mk vp.base (vp.ValidationErrors ++ [⟨field, errmsg⟩])

/-- Word-separator test used by `strings.Title` in the Go standard library
(for the ASCII characters occurring in catalog titles): letters, digits and
underscore do not separate words; everything else does. -/
def goIsSeparator (c : Char) : Bool :=
  !(c.isAlpha || c.isDigit || c == '_')

/-- Character-level worker for `stringsTitle`: upper-cases every character
that follows a word separator (or starts the string). -/
def titleChars : Bool → List Char → List Char
  | _, [] => []
  | prevSep, c :: rest =>
    (if prevSep then c.toUpper else c) :: titleChars (goIsSeparator c) rest

/-- Models `strings.Title` from the Go standard library, which the package
test uses to check that catalog titles are title-cased: each character that
begins a word is mapped to upper case. -/
def stringsTitle (s : String) : String :=
  String.mk (titleChars true s.data)

theorem decode_encode (pd : ProblemDetails) :
    decodePD (encodePD pd) =
      ProblemDetails.mk pd.Status pd.Title pd.Detail pd.Type' pd.Instance' none := by
  cases pd with
  | mk s t d ty i w =>
    simp only [encodePD, decodePD, ProblemDetails.Status, ProblemDetails.Title,
      ProblemDetails.Detail, ProblemDetails.Type', ProblemDetails.Instance']
    by_cases hs : s = 0 <;> by_cases ht : t = "" <;> by_cases hd : d = "" <;>
      by_cases hty : ty = "" <;> by_cases hi : i = "" <;>
      simp [hs, ht, hd, hty, hi, getStr, getNum, getField]

/-- Claim C1: the non-fluent dispatch `Write(w, err)`. A `nil` error performs
no write and returns `nil`; an error satisfying the `HTTPError` capability
(`ProblemDetails` or `ValidationProblem`) is serialized via `rawWrite`
(appending exactly one response with the problem MIME type, the status of
the object, and its JSON encoding) and `nil` is returned; a plain error is
returned unmodified with nothing written; a non-error value yields the
formatting error describing the invalid type. -/
theorem write_dispatch_table (w : Recorder) (pd : ProblemDetails)
    (vp : ValidationProblem) (msg t : String) :
    Write w none = (w, none)
  ∧ Write w (some (.goError (.plain msg))) = (w, some (.plain msg))
  ∧ Write w (some (.goError (.problem pd))) = rawWrite w (.pd pd)
  ∧ Write w (some (.goError (.validation vp))) = rawWrite w (.vp vp)
  ∧ (rawWrite w (.pd pd)).snd = none ∧ (rawWrite w (.vp vp)).snd = none
  ∧ (rawWrite w (.pd pd)).fst = w ++ [⟨ContentProblemDetails, pd.GetStatus, encodePD pd⟩]
  ∧ Write w (some (.nonError t)) = (w, some (.plain ("can't write non-error type " ++ t))) :=
  ⟨rfl, rfl, rfl, rfl, rfl, rfl, rfl, rfl⟩

/-- Claim C2: `MustWrite(w, err)` writes no response when `err` is `nil` and
exactly one response whenever `err` is non-`nil`; a plain error with message
`msg` is written as a 500 response whose decoded body has status 500 and
detail equal to `msg`. -/
theorem mustWrite_spec (w : Recorder) (err : Option GoError) (msg : String)
    (hne : err ≠ none) :
    MustWrite w none = (w, none)
  ∧ (MustWrite w err).fst.length = w.length + 1
  ∧ (MustWrite w (some (.plain msg))).fst
      = w ++ [⟨ContentProblemDetails, 500, encodePD ((New 500).WithErr (.plain msg))⟩]
  ∧ (decodePD (encodePD ((New 500).WithErr (.plain msg)))).Status = 500
  ∧ (decodePD (encodePD ((New 500).WithErr (.plain msg)))).Detail = msg := by
  refine ⟨rfl, ?_, rfl, ?_, ?_⟩
  · match err with
    | none => exact absurd rfl hne
    | some e =>
      cases e <;> simp [MustWrite, Write, rawWrite, ProblemDetails.Write]
  · rw [decode_encode]; rfl
  · rw [decode_encode]; rfl

/-- Witness for `mustWrite_spec` at the concrete plain error of message X. -/
theorem mustWrite_witness :
    MustWrite [] none = ([], none)
  ∧ (MustWrite [] (some (GoError.plain "X"))).fst.length = 1
  ∧ (MustWrite [] (some (GoError.plain "X"))).fst
      = [] ++ [⟨ContentProblemDetails, 500, encodePD ((New 500).WithErr (.plain "X"))⟩]
  ∧ (decodePD (encodePD ((New 500).WithErr (.plain "X")))).Status = 500
  ∧ (decodePD (encodePD ((New 500).WithErr (.plain "X")))).Detail = "X" :=
  mustWrite_spec [] (some (GoError.plain "X")) "X" (Option.some_ne_none _)

/-- Claim C3 (amended): for every status covered by the Status Catalog
(non-empty catalog title) and every supplied detail string, writing the
constructed problem produces exactly one response with the problem MIME
type and that status, and decoding its JSON body yields the same status, a
non-empty title, a non-empty type, and the exact detail supplied. For a
status the catalog does not cover, the decoded title is empty (see the
counterexample), so the claim does not hold for every status. -/
theorem roundTrip_catalog (s : Int) (d : String) (w : Recorder)
    (h : lookupTitle s ≠ "") :
    Write w (some (.goError (.problem ((New s).WithDetail d))))
      = (w ++ [⟨ContentProblemDetails, s, encodePD ((New s).WithDetail d)⟩], none)
  ∧ (decodePD (encodePD ((New s).WithDetail d))).Status = s
  ∧ (decodePD (encodePD ((New s).WithDetail d))).Title ≠ ""
  ∧ (decodePD (encodePD ((New s).WithDetail d))).Type' ≠ ""
  ∧ (decodePD (encodePD ((New s).WithDetail d))).Detail = d := by
  refine ⟨rfl, ?_, ?_, ?_, ?_⟩
  · rw [decode_encode]; rfl
  · rw [decode_encode]; exact h
  · rw [decode_encode]
    show ("https://httpstatuses.com/" ++ toString s) ≠ ""
    intro hc
    have h2 := congrArg String.length hc
    rw [String.length_append, show "".length = 0 from rfl,
      show "https://httpstatuses.com/".length = 25 from rfl] at h2
    omega
  · rw [decode_encode]; rfl

/-- Witness for `roundTrip_catalog` at status 404 and a concrete detail. -/
theorem roundTrip_witness :
    Write [] (some (.goError (.problem ((New 404).WithDetail "No such page"))))
      = ([⟨ContentProblemDetails, 404, encodePD ((New 404).WithDetail "No such page")⟩], none)
  ∧ (decodePD (encodePD ((New 404).WithDetail "No such page"))).Status = 404
  ∧ (decodePD (encodePD ((New 404).WithDetail "No such page"))).Title ≠ ""
  ∧ (decodePD (encodePD ((New 404).WithDetail "No such page"))).Type' ≠ ""
  ∧ (decodePD (encodePD ((New 404).WithDetail "No such page"))).Detail = "No such page" :=
  roundTrip_catalog 404 "No such page" [] (by decide)

/-- Counterexample to claim C3 as stated: status 450 is not covered by the
catalog, so the problem constructed from it round-trips to an empty title,
not a non-empty one (while the write still happens and the detail survives). -/
theorem roundTrip_counterexample :
    (Write [] (some (.goError (.problem ((New 450).WithDetail "x"))))).fst.length = 1
  ∧ (decodePD (encodePD ((New 450).WithDetail "x"))).Detail = "x"
  ∧ (decodePD (encodePD ((New 450).WithDetail "x"))).Title = "" :=
  ⟨rfl, rfl, rfl⟩

/-- Claim C4: for every integer status, `New(status)` produces a
`ProblemDetails` whose status is that status, whose title is the catalog
lookup (the empty string when the catalog does not cover the code), and
whose type is the default type URI built from the status. -/
theorem new_spec (status : Int) :
    (New status).Status = status
  ∧ (New status).Title = lookupTitle status
  ∧ (New status).Type' = "https://httpstatuses.com/" ++ toString status
  ∧ (typeForStatus.lookup status = none → (New status).Title = "") := by
  refine ⟨rfl, rfl, rfl, fun h => ?_⟩
  show (typeForStatus.lookup status).getD "" = ""
  rw [h]
  rfl

/-- Witness for `new_spec` at the uncovered status 450. -/
theorem new_spec_witness :
    (New 450).Status = 450
  ∧ (New 450).Title = lookupTitle 450
  ∧ (New 450).Type' = "https://httpstatuses.com/" ++ toString (450 : Int)
  ∧ (New 450).Title = "" :=
  ⟨(new_spec 450).1, (new_spec 450).2.1, (new_spec 450).2.2.1,
   (new_spec 450).2.2.2 (by decide)⟩

/-- Claim C5: across the Status Catalog, the covered codes are distinct, no
two of them map to the same title, no two map to the same default type URI,
every covered title is title case (per the `strings.Title` check used by
the package test) except status 418, whose title is verbatim
"I'm a teapot" and genuinely not title case. -/
theorem catalog_spec :
    (typeForStatus.map Prod.fst).Nodup
  ∧ (typeForStatus.map Prod.snd).Nodup
  ∧ (typeForStatus.map (fun p => (New p.fst).Type')).Nodup
  ∧ typeForStatus.all (fun p => p.fst == 418 || stringsTitle p.snd == p.snd) = true
  ∧ lookupTitle 418 = "I'm a teapot"
  ∧ stringsTitle (lookupTitle 418) ≠ lookupTitle 418 :=
  ⟨by decide, by decide, by decide, by decide, by decide, by decide⟩

/-- Counterexample to claim C6 as stated: the catalog maps 599 to
"Network Connect Timeout New", not to "Network Connect Timeout". -/
theorem catalog_informal_counterexample :
    lookupTitle 599 = "Network Connect Timeout New"
  ∧ lookupTitle 599 ≠ "Network Connect Timeout" :=
  ⟨by decide, by decide⟩

/-- Claim C6 (amended): the catalog includes the two informal extension
codes, with 499 mapped to "Client Closed Request" and 599 mapped to
"Network Connect Timeout New". -/
theorem catalog_informal_codes :
    lookupTitle 499 = "Client Closed Request"
  ∧ lookupTitle 599 = "Network Connect Timeout New" :=
  ⟨by decide, by decide⟩

/-- Claim C7: `WithErr(err)` stores `err` as the underlying cause, so
`Unwrap` returns it; the detail is set to the cause message exactly when it
was empty before the call and kept otherwise; all other fields of the
object are unchanged. -/
theorem withErr_spec (pd : ProblemDetails) (e : GoError) :
    (pd.WithErr e).Unwrap = some e
  ∧ (pd.WithErr e).Detail = (if pd.Detail = "" then e.Error else pd.Detail)
  ∧ (pd.WithErr e).Status = pd.Status
  ∧ (pd.WithErr e).Title = pd.Title
  ∧ (pd.WithErr e).Type' = pd.Type'
  ∧ (pd.WithErr e).Instance' = pd.Instance' := by
  cases pd
  exact ⟨rfl, rfl, rfl, rfl, rfl, rfl⟩

/-- Claim C8: `Errorf(fmt, args...)` sets the detail to the formatted
message, and when exactly one `%w` placeholder consumed an error argument,
that argument becomes the single-level wrapped cause, so `Unwrap` returns
it; the other fields of the object are unchanged. -/
theorem errorf_spec (pd : ProblemDetails) (fmtstr : String) (args : List FmtArg)
    (e : GoError) (hw : wCaptured fmtstr args = [e]) :
    (pd.Errorf fmtstr args).Detail = (fmtErrorf fmtstr args).fst
  ∧ (pd.Errorf fmtstr args).Unwrap = some e
  ∧ (pd.Errorf fmtstr args).Status = pd.Status
  ∧ (pd.Errorf fmtstr args).Title = pd.Title
  ∧ (pd.Errorf fmtstr args).Type' = pd.Type'
  ∧ (pd.Errorf fmtstr args).Instance' = pd.Instance' := by
  refine ⟨rfl, ?_, rfl, rfl, rfl, rfl⟩
  show (match wCaptured fmtstr args with
        | [e'] => some e'
        | _ => none) = some e
  rw [hw]

/-- Witness for `errorf_spec` on a concrete format string with one `%w`. -/
theorem errorf_witness :
    ((New 404).Errorf "failed: %w" [.err (.plain "boom")]).Detail
      = (fmtErrorf "failed: %w" [.err (.plain "boom")]).fst
  ∧ ((New 404).Errorf "failed: %w" [.err (.plain "boom")]).Unwrap = some (.plain "boom")
  ∧ ((New 404).Errorf "failed: %w" [.err (.plain "boom")]).Status = (New 404).Status
  ∧ ((New 404).Errorf "failed: %w" [.err (.plain "boom")]).Title = (New 404).Title
  ∧ ((New 404).Errorf "failed: %w" [.err (.plain "boom")]).Type' = (New 404).Type'
  ∧ ((New 404).Errorf "failed: %w" [.err (.plain "boom")]).Instance' = (New 404).Instance' :=
  errorf_spec (New 404) "failed: %w" [.err (.plain "boom")] (.plain "boom") rfl

/-- Claim C9: `NewValidationProblem()` has status 400, the generic default
detail, and an empty field-error list; every `Add` appends one entry at the
end (insertion order, no deduplication) without touching the base; and the
two-field scenario writes exactly one response of status 400 whose decoded
body carries status 400 and exactly the two field/reason pairs in order. -/
theorem validation_spec (vp : ValidationProblem) (f r : String) :
    NewValidationProblem.base.Status = 400
  ∧ NewValidationProblem.base.Detail = "Validation error"
  ∧ NewValidationProblem.ValidationErrors = []
  ∧ (vp.Add f r).ValidationErrors = vp.ValidationErrors ++ [⟨f, r⟩]
  ∧ (vp.Add f r).base = vp.base
  ∧ MustWrite []
      (some (.validation ((NewValidationProblem.Add "email" "Must be a valid e-mail address").Add
        "name" "You must provide your name")))
      = ([⟨ContentProblemDetails, 400,
            encodeVP ((NewValidationProblem.Add "email" "Must be a valid e-mail address").Add
              "name" "You must provide your name")⟩], none)
  ∧ (decodeVP (encodeVP ((NewValidationProblem.Add "email" "Must be a valid e-mail address").Add
        "name" "You must provide your name"))).base.Status = 400
  ∧ (decodeVP (encodeVP ((NewValidationProblem.Add "email" "Must be a valid e-mail address").Add
        "name" "You must provide your name"))).ValidationErrors
      = [⟨"email", "Must be a valid e-mail address"⟩, ⟨"name", "You must provide your name"⟩] :=
  ⟨rfl, rfl, rfl, rfl, rfl, rfl, rfl, rfl⟩

/-- Claim C10: `NewValidationProblem()` leaves title and type empty, so its
promoted error message is the empty string and its serialized JSON omits
the title and type fields — unlike a `ProblemDetails` built by `New`, whose
encoding carries both. -/
theorem validation_defaults_spec :
    NewValidationProblem.base.Title = ""
  ∧ NewValidationProblem.base.Type' = ""
  ∧ ValidationProblem.Error NewValidationProblem = ""
  ∧ getField (encodeVP NewValidationProblem) "title" = none
  ∧ getField (encodeVP NewValidationProblem) "type" = none
  ∧ (New 400).Title = "Bad Request"
  ∧ getField (encodePD (New 400)) "title" = some (.str "Bad Request")
  ∧ getField (encodePD (New 400)) "type" = some (.str "https://httpstatuses.com/400") :=
  ⟨rfl, rfl, rfl, rfl, rfl, rfl, rfl, rfl⟩

end Problem
